import Mathlib

/-!
# Verification of the carina CLI (src/main.go)

A shallow embedding of the cluster-lifecycle logic of the carina
command-line client.  Pure data (the `Cluster` snapshot, the rendered
rows) is translated directly; the effectful parts (sleeps, API calls,
writes to the tab writer, flushes) are made observable by returning an
explicit `Trace` of the effects a command performs.

External collaborators (the libcarina API client, the file system, the
tab writer) are modelled as inputs: each API call's result is supplied
as a value `Option Cluster × Option String` mirroring Go's
`(*libcarina.Cluster, error)` pair, the sequence of `Get` responses the
backend would produce during polling is supplied as a list, and the tab
writer's possible write failure as an `Option String`.  A Go nil-pointer
dereference is modelled as the `Outcome.panicked` result.
-/

namespace Carina

/-- A cluster snapshot, translated from `libcarina.Cluster` as used by
`src/main.go` (fields `ClusterName`, `Flavor`, `Nodes`, `AutoScale`,
`Status`).  `Nodes` is `libcarina.Number`; only its `Int64` decimal
rendering is observed by this program, so it is embedded as `Int`. -/
structure Cluster where
  ClusterName : String
  Flavor : String
  Nodes : Int
  AutoScale : Bool
  Status : String
deriving Repr, DecidableEq

/-- The result of one API call, mirroring Go's
`(*libcarina.Cluster, error)`: both components are independently
present or absent (`none` models a nil pointer / nil error). -/
abbrev OpResult := Option Cluster × Option String

/-- How a command invocation ends: a normal return (`success`), an
error return (`errored`), a Go runtime panic from a nil-pointer
dereference (`panicked`), or — since the polling loop of the source has
no iteration bound — `stillPolling` when the supplied finite list of
backend responses is exhausted while the status is still non-terminal. -/
inductive Outcome where
  | success
  | errored (e : String)
  | panicked
  | stillPolling
deriving Repr, DecidableEq

/-- The observable effects of one command invocation: the sleeps
performed (durations in seconds, in order), the number of re-fetch
(`Get`) calls made by the wait loop, the rows written to the tab
writer, the number of `Flush` calls, the number of calls to the
command's primary API operation, and the outcome. -/
structure Trace where
  sleeps : List Nat
  refetches : Nat
  rows : List String
  flushes : Nat
  opCalls : Nat
  outcome : Outcome
deriving Repr, DecidableEq

/-- `const startupFudgeFactor = 40 * time.Second` (seconds). -/
def startupFudgeFactor : Nat := 40

/-- `const waitBetween = 10 * time.Second` (seconds). -/
def waitBetween : Nat := 10

/-- Cluster status when new (`const StatusNew = "new"`). -/
def StatusNew : String := "new"

/-- Cluster status when building (`const StatusBuilding = "building"`). -/
def StatusBuilding : String := "building"

/-- Cluster status when rebuilding swarm
(`const StatusRebuildingSwarm = "rebuilding-swarm"`). -/
def StatusRebuildingSwarm : String := "rebuilding-swarm"

/-- The loop condition of `clusterApplyWait`:
`cluster.Status == StatusNew || cluster.Status == StatusBuilding ||
cluster.Status == StatusRebuildingSwarm`. -/
def nonTerminal (s : String) : Prop :=
  s = StatusNew ∨ s = StatusBuilding ∨ s = StatusRebuildingSwarm

instance (s : String) : Decidable (nonTerminal s) := by
  unfold nonTerminal; infer_instance

/-- The row written by `writeCluster`: the five fields joined by tabs
(`strings.Join(..., "\t")`, with `strconv.FormatInt(Nodes.Int64(), 10)`
and `strconv.FormatBool(AutoScale)`), followed by `"\n"`. -/
def clusterRow (c : Cluster) : String :=
  String.intercalate "\t"
    [c.ClusterName, c.Flavor, toString c.Nodes, toString c.AutoScale, c.Status]
    ++ "\n"

/-- The row written by `writeClusterHeader`. -/
def headerRow : String :=
  String.intercalate "\t" ["ClusterName", "Flavor", "Nodes", "AutoScale", "Status"] ++ "\n"

/-- The state carried out of `clusterApplyWait`'s polling `for` loop:
sleeps and re-fetch count accumulated inside the loop, the final values
of the Go variables `cluster` and `err`, whether evaluating
`cluster.Status` dereferenced a nil pointer (`panicked`), and whether
the supplied list of `Get` responses ran out with the loop still going
(`exhausted`). -/
structure LoopState where
  sleeps : List Nat
  refetches : Nat
  cluster : Option Cluster
  err : Option String
  panicked : Bool
  exhausted : Bool
deriving Repr, DecidableEq

/-- The `for` loop of `clusterApplyWait` (src/main.go:261-267):
while `cluster.Status` is non-terminal, sleep `waitBetween`, re-fetch
the cluster via `Get`, and break on a fetch error.  The successive
`Get` results are supplied in `gets`; evaluating `cluster.Status` on a
nil `cluster` is a panic. -/
def waitLoop : Option Cluster → Option String → List OpResult → LoopState
  | none, err, _ => ⟨[], 0, none, err, true, false⟩
  | some c, err, gets =>
    if nonTerminal c.Status then
      match gets with
      | [] => ⟨[], 0, some c, err, false, true⟩
      | (c', e') :: rest =>
        match e' with
        | some e => ⟨[waitBetween], 1, c', some e, false, false⟩
        | none =>
          let r := waitLoop c' none rest
          ⟨waitBetween :: r.sleeps, r.refetches + 1, r.cluster, r.err, r.panicked, r.exhausted⟩
    else ⟨[], 0, some c, err, false, false⟩

/-- The shared tail of `clusterApply` and `clusterApplyWait`
(src/main.go:270-278 and 208-216): if `err != nil` return it; otherwise
`writeCluster` (which dereferences `cluster`, panicking on nil, then
writes one row, failing if the writer fails) and `Flush`.  The `sleeps`
and `refetches` already performed are threaded through.  `opCalls` is 1:
both callers invoke their operation exactly once before this tail. -/
def finish (sleeps : List Nat) (refetches : Nat) (cluster : Option Cluster)
    (err : Option String) (writeErr : Option String) : Trace :=
  match err with
  | some e => ⟨sleeps, refetches, [], 0, 1, .errored e⟩
  | none =>
    match cluster with
    | none => ⟨sleeps, refetches, [], 0, 1, .panicked⟩
    | some c =>
      match writeErr with
      | some e => ⟨sleeps, refetches, [], 0, 1, .errored e⟩
      | none => ⟨sleeps, refetches, [clusterRow c], 1, 1, .success⟩

/-- `clusterApplyWait` (src/main.go:254-279): invoke the operation once
(its result is `opRes`); if `Wait`, sleep `startupFudgeFactor` and run
the polling loop; then return `err` if set, else render and flush. -/
def clusterApplyWait (wait : Bool) (opRes : OpResult)
    (gets : List OpResult) (writeErr : Option String) : Trace :=
  if wait then
    let r := waitLoop opRes.1 opRes.2 gets
    let sleeps := startupFudgeFactor :: r.sleeps
    if r.panicked then ⟨sleeps, r.refetches, [], 0, 1, .panicked⟩
    else if r.exhausted then ⟨sleeps, r.refetches, [], 0, 1, .stillPolling⟩
    else finish sleeps r.refetches r.cluster r.err writeErr
  else finish [] 0 opRes.1 opRes.2 writeErr

/-- `clusterApply` (src/main.go:206-217): invoke the operation once, and
on success render the returned snapshot and flush. -/
def clusterApply (opRes : OpResult) (writeErr : Option String) : Trace :=
  finish [] 0 opRes.1 opRes.2 writeErr

/-- The `get` command (src/main.go:220-222):
`clusterApply(carina.ClusterClient.Get)`. -/
def GetCmd (clusterName : String) (apiGet : String → OpResult)
    (writeErr : Option String) : Trace :=
  clusterApply (apiGet clusterName) writeErr

/-- The `delete` command (src/main.go:225-227):
`clusterApply(carina.ClusterClient.Delete)`. -/
def DeleteCmd (clusterName : String) (apiDelete : String → OpResult)
    (writeErr : Option String) : Trace :=
  clusterApply (apiDelete clusterName) writeErr

/-- The `grow` command (src/main.go:230-234): `clusterApply` of a
closure calling `carina.ClusterClient.Grow(clusterName, carina.Nodes)`.
No validation is performed on `nodes`. -/
def GrowCmd (clusterName : String) (nodes : Int)
    (apiGrow : String → Int → OpResult) (writeErr : Option String) : Trace :=
  clusterApply (apiGrow clusterName nodes) writeErr

/-- The `rebuild` command (src/main.go:237-239):
`clusterApplyWait(carina.ClusterClient.Rebuild)`. -/
def RebuildCmd (clusterName : String) (wait : Bool)
    (apiRebuild : String → OpResult) (gets : List OpResult)
    (writeErr : Option String) : Trace :=
  clusterApplyWait wait (apiRebuild clusterName) gets writeErr

/-- The closure passed to `clusterApplyWait` by `Create`
(src/main.go:283-295): reject `Nodes < 1` with
`errors.New("nodes must be >= 1")` before any API call, otherwise call
`ClusterClient.Create` on a cluster built from the name, node count and
autoscale flag.  The second component counts calls to the API client's
`Create` (0 or 1). -/
def createOp (clusterName : String) (nodes : Int) (autoScale : Bool)
    (apiCreate : Cluster → OpResult) : OpResult × Nat :=
  if nodes < 1 then ((none, some "nodes must be >= 1"), 0)
  else
    (apiCreate { ClusterName := clusterName, Flavor := "", Nodes := nodes,
                 AutoScale := autoScale, Status := "" }, 1)

/-- The `create` command (src/main.go:282-296): `clusterApplyWait` of
`createOp`.  Returns the trace together with the number of calls made
to the API client's `Create`. -/
def CreateCmd (clusterName : String) (nodes : Int) (autoScale : Bool)
    (wait : Bool) (apiCreate : Cluster → OpResult) (gets : List OpResult)
    (writeErr : Option String) : Trace × Nat :=
  let r := createOp clusterName nodes autoScale apiCreate
  (clusterApplyWait wait r.1 gets writeErr, r.2)

/-- The `list` command (src/main.go:182-201): call `List`, return its
error if any; write the header row, then one row per cluster, then
flush.  A writer failure (modelled by `writeErr`) makes the first write
— the header — fail, so no rows are emitted. -/
def ListCmd (clusters : List Cluster) (listErr : Option String)
    (writeErr : Option String) : Trace :=
  match listErr with
  | some e => ⟨[], 0, [], 0, 1, .errored e⟩
  | none =>
    match writeErr with
    | some e => ⟨[], 0, [], 0, 1, .errored e⟩
    | none => ⟨[], 0, headerRow :: clusters.map clusterRow, 1, 1, .success⟩

/-! ## Credentials download -/

/-- The observable effects of the `credentials` command: directories
created (`MkdirAll` path and permission), files written (path, content,
permission), flushes, whether the source-help hint was printed, and the
outcome. -/
structure DownloadTrace where
  mkdirs : List (String × Nat)
  fileWrites : List (String × String × Nat)
  flushes : Nat
  helpPrinted : Bool
  outcome : Outcome
deriving Repr, DecidableEq

/-- Go's `path.Clean`, an external standard-library collaborator,
modelled on the inputs this program produces: the empty path cleans to
`"."`; a path that is already clean (no separators, no dot segments,
as cluster names are in practice) is returned unchanged. -/
def pathClean (s : String) : String :=
  if s = "" then "." else s

/-- Go's `path.Join(pth, fname)`, an external standard-library
collaborator, modelled on already-clean segments: the two joined by a
slash. -/
def pathJoin (a b : String) : String := a ++ "/" ++ b

/-- `writeCredentials` (src/main.go:330-341): for each file of the
bundle, write it under the target directory with permission `0600`;
stop at the first write error and return it.  The file system's answer
to each successive write is supplied in `wfail` (`none` = success).
Returns the writes that succeeded, in order, and the error if any. -/
def writeCredentials (pth : String) :
    List (String × String) → List (Option String) →
    List (String × String × Nat) × Option String
  | [], _ => ([], none)
  | (fname, b) :: rest, wfail =>
    match wfail.headD none with
    | some e => ([], some e)
    | none =>
      let r := writeCredentials pth rest wfail.tail
      ((pathJoin pth fname, b, 0o600) :: r.1, r.2)

/-- The `credentials` command, `Download` (src/main.go:299-328): fetch
the credentials bundle (its files are `creds`, the fetch error
`credsErr`); default the path to the cluster name; clean it; `MkdirAll`
with permission `0777` unless the cleaned path is `"."` (the file
system's answer is `mkdirErr`); write the files; print the source help
hint; flush. -/
def Download (clusterName pathArg : String) (creds : List (String × String))
    (credsErr : Option String) (mkdirErr : Option String)
    (wfail : List (Option String)) : DownloadTrace :=
  match credsErr with
  | some e => ⟨[], [], 0, false, .errored e⟩
  | none =>
    let path1 := if pathArg = "" then clusterName else pathArg
    let p := pathClean path1
    let mk : List (String × Nat) × Option String :=
      if p ≠ "." then ([(p, 0o777)], mkdirErr) else ([], none)
    match mk.2 with
    | some e => ⟨mk.1, [], 0, false, .errored e⟩
    | none =>
      let w := writeCredentials p creds wfail
      match w.2 with
      | some e => ⟨mk.1, w.1, 0, false, .errored e⟩
      | none => ⟨mk.1, w.1, 1, true, .success⟩

/-! ## Unfolding lemmas for the polling loop -/

theorem waitLoop_nil_cluster (err : Option String) (gets : List OpResult) :
    waitLoop none err gets = ⟨[], 0, none, err, true, false⟩ := by
  rw [waitLoop.eq_def]

theorem waitLoop_terminal {c : Cluster} (h : ¬ nonTerminal c.Status)
    (e : Option String) (gets : List OpResult) :
    waitLoop (some c) e gets = ⟨[], 0, some c, e, false, false⟩ := by
  rw [waitLoop.eq_def]; simp [h]

theorem waitLoop_exhausted {c : Cluster} (h : nonTerminal c.Status) (e : Option String) :
    waitLoop (some c) e [] = ⟨[], 0, some c, e, false, true⟩ := by
  rw [waitLoop.eq_def]; simp [h]

theorem waitLoop_fetch_err {c : Cluster} (h : nonTerminal c.Status)
    (e : Option String) (c? : Option Cluster) (e2 : String) (rest : List OpResult) :
    waitLoop (some c) e ((c?, some e2) :: rest) =
      ⟨[waitBetween], 1, c?, some e2, false, false⟩ := by
  rw [waitLoop.eq_def]; simp [h]

theorem waitLoop_fetch_ok {c : Cluster} (h : nonTerminal c.Status)
    (e : Option String) (c? : Option Cluster) (rest : List OpResult) :
    waitLoop (some c) e ((c?, none) :: rest) =
      ⟨waitBetween :: (waitLoop c? none rest).sleeps, (waitLoop c? none rest).refetches + 1,
       (waitLoop c? none rest).cluster, (waitLoop c? none rest).err,
       (waitLoop c? none rest).panicked, (waitLoop c? none rest).exhausted⟩ := by
  rw [waitLoop.eq_def]; simp [h]

/-- Inside the loop, every re-fetch is preceded by exactly one
`waitBetween` sleep: the sleeps recorded by the loop are exactly
`refetches` copies of `waitBetween`. -/
theorem waitLoop_sleeps_replicate (gets : List OpResult) :
    ∀ (c? : Option Cluster) (e : Option String),
      (waitLoop c? e gets).sleeps =
        List.replicate (waitLoop c? e gets).refetches waitBetween := by
  induction gets with
  | nil =>
    intro c? e
    match c? with
    | none => simp [waitLoop_nil_cluster]
    | some c =>
      by_cases h : nonTerminal c.Status
      · simp [waitLoop_exhausted h]
      · simp [waitLoop_terminal h]
  | cons g rest ih =>
    intro c? e
    match c? with
    | none => simp [waitLoop_nil_cluster]
    | some c =>
      by_cases h : nonTerminal c.Status
      · match g with
        | (c', some e2) => simp [waitLoop_fetch_err h, List.replicate]
        | (c', none) =>
          rw [waitLoop_fetch_ok h]
          simp [List.replicate_succ, ih c' none]
      · simp [waitLoop_terminal h]

theorem finish_sleeps (s : List Nat) (n : Nat) (cl : Option Cluster)
    (e w : Option String) : (finish s n cl e w).sleeps = s := by
  cases e <;> cases cl <;> cases w <;> rfl

theorem finish_refetches (s : List Nat) (n : Nat) (cl : Option Cluster)
    (e w : Option String) : (finish s n cl e w).refetches = n := by
  cases e <;> cases cl <;> cases w <;> rfl

/-- The rows a `finish` writes: nothing, or the single row of the
rendered snapshot. -/
theorem finish_rows (s : List Nat) (n : Nat) (cl : Option Cluster)
    (e w : Option String) :
    (finish s n cl e w).rows = [] ∨
      ∃ c, (finish s n cl e w).rows = [clusterRow c] := by
  cases e <;> cases cl <;> cases w <;> simp [finish]

/-- The rows `clusterApplyWait` writes: nothing, or a single rendered
snapshot row. -/
theorem clusterApplyWait_rows (wait : Bool) (opRes : OpResult)
    (gets : List OpResult) (w : Option String) :
    (clusterApplyWait wait opRes gets w).rows = [] ∨
      ∃ c, (clusterApplyWait wait opRes gets w).rows = [clusterRow c] := by
  unfold clusterApplyWait
  dsimp only
  split
  · split_ifs
    · simp
    · simp
    · exact finish_rows _ _ _ _ _
  · exact finish_rows _ _ _ _ _

theorem finish_opCalls (s : List Nat) (n : Nat) (cl : Option Cluster)
    (e w : Option String) : (finish s n cl e w).opCalls = 1 := by
  cases e <;> cases cl <;> cases w <;> rfl

/-- `clusterRow` regrouped around the autoscale field. -/
theorem clusterRow_split (c : Cluster) :
    clusterRow c =
      (c.ClusterName ++ "\t" ++ c.Flavor ++ "\t" ++ toString c.Nodes ++ "\t")
        ++ toString c.AutoScale ++ ("\t" ++ c.Status ++ "\n") := by
  have h : clusterRow c =
      c.ClusterName ++ "\t" ++ c.Flavor ++ "\t" ++ toString c.Nodes ++ "\t"
        ++ toString c.AutoScale ++ "\t" ++ c.Status ++ "\n" := rfl
  rw [h]
  simp [String.append_assoc]

/-- No cluster snapshot renders as the header row: the rendered row
always contains `"true"` or `"false"` (the autoscale field) as a
contiguous substring, and the header contains neither. -/
theorem clusterRow_ne_headerRow (c : Cluster) : clusterRow c ≠ headerRow := by
  intro h
  have hinf : (toString c.AutoScale).data <:+: headerRow.data := by
    rw [← h, clusterRow_split]
    exact ⟨(c.ClusterName ++ "\t" ++ c.Flavor ++ "\t" ++ toString c.Nodes ++ "\t").data,
           ("\t" ++ c.Status ++ "\n").data, by simp [String.data_append]⟩
  cases hab : c.AutoScale
  · rw [hab] at hinf
    exact absurd hinf (by decide)
  · rw [hab] at hinf
    exact absurd hinf (by decide)

/-! ## The claims -/

/-- C1: the spec says a transport error on the initial mutating call
must short-circuit with zero re-fetches, no sleeping and no output,
regardless of `wait`.  The code satisfies this for `wait = false`; but
for `wait = true` the `if err != nil` check comes only after the wait
block, so the code sleeps the 40-second grace interval and then
dereferences the nil snapshot (`cluster.Status`), panicking instead of
returning the error.  This theorem records both behaviours. -/
theorem c1_initial_error_divergence :
    clusterApplyWait false (none, some "transport error") [] none =
      ⟨[], 0, [], 0, 1, .errored "transport error"⟩ ∧
    clusterApplyWait true (none, some "transport error") [] none =
      ⟨[startupFudgeFactor], 0, [], 0, 1, .panicked⟩ :=
  ⟨rfl, rfl⟩

/-- C5: with `wait = false` and a successful initial call,
`clusterApplyWait` performs no sleep and no re-fetch, and renders the
returned snapshot (whatever its status) followed by one flush. -/
theorem c5_no_wait_renders_immediately (c : Cluster) (gets : List OpResult) :
    clusterApplyWait false (some c, none) gets none =
      ⟨[], 0, [clusterRow c], 1, 1, .success⟩ := rfl

/-- C8: `get`, `delete` and `grow` all go through `clusterApply`, which
makes exactly one API call (and never re-fetches or sleeps); an error
from the call, or from rendering, short-circuits with that error and no
row written and no flush; in particular `grow` against an erroring
backend produces the error and no output row. -/
theorem c8_apply_and_render (name : String) (apiGet apiDelete : String → OpResult)
    (nodes : Int) (apiGrow : String → Int → OpResult) (opRes : OpResult)
    (c : Cluster) (e : String) (w : Option String) :
    (GetCmd name apiGet w = clusterApply (apiGet name) w ∧
     DeleteCmd name apiDelete w = clusterApply (apiDelete name) w ∧
     GrowCmd name nodes apiGrow w = clusterApply (apiGrow name nodes) w) ∧
    ((clusterApply opRes w).opCalls = 1 ∧ (clusterApply opRes w).refetches = 0 ∧
     (clusterApply opRes w).sleeps = []) ∧
    clusterApply (opRes.1, some e) w = ⟨[], 0, [], 0, 1, .errored e⟩ ∧
    clusterApply (some c, none) (some e) = ⟨[], 0, [], 0, 1, .errored e⟩ ∧
    GrowCmd "foo" 2 (fun _ _ => (none, some "backend error")) none =
      ⟨[], 0, [], 0, 1, .errored "backend error"⟩ := by
  refine ⟨⟨rfl, rfl, rfl⟩, ⟨?_, ?_, ?_⟩, rfl, rfl, rfl⟩
  · exact finish_opCalls _ _ _ _ _
  · exact finish_refetches _ _ _ _ _
  · exact finish_sleeps _ _ _ _ _

/-- With `wait = true`, the trace's sleeps are the grace sleep followed
by the loop's sleeps, and its re-fetch count is the loop's. -/
theorem clusterApplyWait_true_struct (opRes : OpResult) (gets : List OpResult)
    (w : Option String) :
    (clusterApplyWait true opRes gets w).sleeps =
      startupFudgeFactor :: (waitLoop opRes.1 opRes.2 gets).sleeps ∧
    (clusterApplyWait true opRes gets w).refetches =
      (waitLoop opRes.1 opRes.2 gets).refetches := by
  dsimp only [clusterApplyWait]
  split_ifs
  · exact ⟨rfl, rfl⟩
  · exact ⟨rfl, rfl⟩
  · exact ⟨finish_sleeps _ _ _ _ _, finish_refetches _ _ _ _ _⟩
  · exact absurd rfl ‹¬true = true›

/-- C2: the loop keeps polling exactly when the status is one of the
three strings `"new"`, `"building"`, `"rebuilding-swarm"`; on any other
status string (error statuses included) the loop exits at once with no
re-fetch and the snapshot is rendered. -/
theorem c2_loop_condition (c : Cluster) (gets : List OpResult)
    (g : OpResult) (rest : List OpResult) :
    (nonTerminal c.Status ↔
      (c.Status = "new" ∨ c.Status = "building" ∨ c.Status = "rebuilding-swarm")) ∧
    (nonTerminal c.Status → 1 ≤ (waitLoop (some c) none (g :: rest)).refetches) ∧
    (¬ nonTerminal c.Status →
      waitLoop (some c) none gets = ⟨[], 0, some c, none, false, false⟩ ∧
      clusterApplyWait true (some c, none) gets none =
        ⟨[startupFudgeFactor], 0, [clusterRow c], 1, 1, .success⟩) := by
  refine ⟨Iff.rfl, ?_, ?_⟩
  · intro h
    match g with
    | (c?, some e2) => rw [waitLoop_fetch_err h]
    | (c?, none) => rw [waitLoop_fetch_ok h]; exact Nat.succ_le_succ (Nat.zero_le _)
  · intro h
    refine ⟨waitLoop_terminal h none gets, ?_⟩
    unfold clusterApplyWait
    dsimp only
    rw [waitLoop_terminal h none gets]
    simp [finish]

/-- Witness for C2 at concrete snapshots: status `"new"` triggers a
re-fetch; status `"active"` exits the loop with no re-fetch and the row
is rendered. -/
theorem c2_witness :
    1 ≤ (waitLoop (some ⟨"foo", "fl", 3, true, "new"⟩) none [(none, some "x")]).refetches ∧
    clusterApplyWait true (some ⟨"foo", "fl", 3, true, "active"⟩, none) [] none =
      ⟨[startupFudgeFactor], 0, [clusterRow ⟨"foo", "fl", 3, true, "active"⟩], 1, 1,
        .success⟩ :=
  ⟨(c2_loop_condition ⟨"foo", "fl", 3, true, "new"⟩ [] (none, some "x") []).2.1 (by decide),
   ((c2_loop_condition ⟨"foo", "fl", 3, true, "active"⟩ [] (none, some "x") []).2.2
     (by decide)).2⟩

/-- C3: with `wait = true` the grace sleep happens exactly once, before
any re-fetch, and thereafter every re-fetch is preceded by exactly one
10-second sleep — the sleep list is always `40` followed by one `10`
per re-fetch; on the status sequence new, building, building, active
this gives one grace sleep, three poll sleeps, three re-fetches and a
final rendered status of `"active"`. -/
theorem c3_wait_sleep_discipline :
    (∀ (opRes : OpResult) (gets : List OpResult) (w : Option String),
      (clusterApplyWait true opRes gets w).sleeps =
        startupFudgeFactor ::
          List.replicate (clusterApplyWait true opRes gets w).refetches waitBetween) ∧
    clusterApplyWait true (some ⟨"foo", "fl", 3, true, "new"⟩, none)
        [(some ⟨"foo", "fl", 3, true, "building"⟩, none),
         (some ⟨"foo", "fl", 3, true, "building"⟩, none),
         (some ⟨"foo", "fl", 3, true, "active"⟩, none)] none =
      ⟨[startupFudgeFactor, waitBetween, waitBetween, waitBetween], 3,
       [clusterRow ⟨"foo", "fl", 3, true, "active"⟩], 1, 1, .success⟩ := by
  constructor
  · intro opRes gets w
    rw [(clusterApplyWait_true_struct opRes gets w).1,
        (clusterApplyWait_true_struct opRes gets w).2,
        waitLoop_sleeps_replicate]
  · rfl

/-- Unwinding the loop along a run of successful non-terminal
re-fetches that ends in a failed re-fetch: the loop breaks at the
failure, having slept once per re-fetch, and everything after the
failed fetch (`rest`) is never consumed. -/
theorem waitLoop_break_on_fetch_error (pre : List OpResult) :
    ∀ c : Cluster, nonTerminal c.Status →
      (∀ p ∈ pre, ∃ cp : Cluster, p = (some cp, none) ∧ nonTerminal cp.Status) →
      ∀ (cX : Option Cluster) (eX : String) (rest : List OpResult),
        waitLoop (some c) none (pre ++ (cX, some eX) :: rest) =
          ⟨List.replicate (pre.length + 1) waitBetween, pre.length + 1,
           cX, some eX, false, false⟩ := by
  induction pre with
  | nil =>
    intro c hc _ cX eX rest
    simp [waitLoop_fetch_err hc, List.replicate]
  | cons p pre ih =>
    intro c hc hpre cX eX rest
    obtain ⟨cp, hp, hcp⟩ := hpre p (by simp)
    subst hp
    rw [List.cons_append, waitLoop_fetch_ok hc,
        ih cp hcp (fun q hq => hpre q (by simp [hq])) cX eX rest]
    simp [List.replicate_succ]

/-- C4: a failed re-fetch during polling ends the run at once — the
responses after the failure are never consumed, so the fetch is not
retried — the fetch error becomes the command's result, and no row is
written and nothing is flushed. -/
theorem c4_refetch_error_aborts (c : Cluster) (hc : nonTerminal c.Status)
    (pre : List OpResult)
    (hpre : ∀ p ∈ pre, ∃ cp : Cluster, p = (some cp, none) ∧ nonTerminal cp.Status)
    (cX : Option Cluster) (eX : String) (rest : List OpResult) (w : Option String) :
    clusterApplyWait true (some c, none) (pre ++ (cX, some eX) :: rest) w =
      ⟨startupFudgeFactor :: List.replicate (pre.length + 1) waitBetween,
       pre.length + 1, [], 0, 1, .errored eX⟩ := by
  unfold clusterApplyWait
  dsimp only
  rw [waitLoop_break_on_fetch_error pre c hc hpre cX eX rest]
  simp [finish]

/-- Witness for C4: a run new → building → failed `Get`; the error is
returned after exactly two re-fetches, the response after the failure
is ignored, and nothing is rendered. -/
theorem c4_witness :
    clusterApplyWait true (some ⟨"foo", "fl", 3, true, "new"⟩, none)
        [(some ⟨"foo", "fl", 3, true, "building"⟩, none), (none, some "geterr"),
         (some ⟨"foo", "fl", 3, true, "active"⟩, none)] none =
      ⟨startupFudgeFactor :: List.replicate 2 waitBetween, 2, [], 0, 1,
        .errored "geterr"⟩ :=
  c4_refetch_error_aborts ⟨"foo", "fl", 3, true, "new"⟩ (by decide)
    [(some ⟨"foo", "fl", 3, true, "building"⟩, none)]
    (by
      intro p hp
      simp at hp
      subst hp
      exact ⟨⟨"foo", "fl", 3, true, "building"⟩, rfl, by decide⟩)
    none "geterr" [(some ⟨"foo", "fl", 3, true, "active"⟩, none)] none

/-- C6: the spec says `create` with fewer than one node must fail with
a validation error and never call the API client's `Create`.  `Create`
is indeed never called (the closure returns the validation error before
any API call), and with `wait = false` the command fails with exactly
that error; but with `wait = true` the same nil-check slip as in C1
makes the command sleep 40 seconds and panic on the nil snapshot
instead of returning the validation error. -/
theorem c6_create_validation :
    (∀ (name : String) (n : Int), n < 1 →
      ∀ (a wait : Bool) (api : Cluster → OpResult) (gets : List OpResult)
        (w : Option String),
        createOp name n a api = ((none, some "nodes must be >= 1"), 0) ∧
        (CreateCmd name n a wait api gets w).2 = 0) ∧
    CreateCmd "foo" 0 true false (fun c => (some c, none)) [] none =
      (⟨[], 0, [], 0, 1, .errored "nodes must be >= 1"⟩, 0) ∧
    CreateCmd "foo" 0 true true (fun c => (some c, none)) [] none =
      (⟨[startupFudgeFactor], 0, [], 0, 1, .panicked⟩, 0) := by
  refine ⟨?_, rfl, rfl⟩
  intro name n hn a wait api gets w
  constructor
  · simp [createOp, hn]
  · simp [CreateCmd, createOp, hn]

/-- Witness for C6 at `nodes = 0`: the validation error is produced and
the API client's `Create` is called zero times. -/
theorem c6_witness :
    createOp "foo" 0 true (fun c => (some c, none)) =
      ((none, some "nodes must be >= 1"), 0) ∧
    (CreateCmd "foo" 0 true false (fun c => (some c, none)) [] none).2 = 0 :=
  ⟨(c6_create_validation.1 "foo" 0 (by decide) true false (fun c => (some c, none))
      [] none).1,
   (c6_create_validation.1 "foo" 0 (by decide) true false (fun c => (some c, none))
      [] none).2⟩

/-- When every write succeeds, `writeCredentials` writes every file of
the bundle, in order, with permission `0600`, and returns no error. -/
theorem writeCredentials_all_ok (pth : String) :
    ∀ files : List (String × String),
      writeCredentials pth files (List.replicate files.length none) =
        (files.map fun fb => (pathJoin pth fb.1, fb.2, 0o600), none) := by
  intro files
  induction files with
  | nil => rfl
  | cons fb rest ih =>
    obtain ⟨fname, b⟩ := fb
    simp [writeCredentials, List.replicate_succ, ih]

/-- When the write of file `k` fails, `writeCredentials` stops there:
the first `k` files have been written (and stay written), and the write
error is returned. -/
theorem writeCredentials_fail_at (pth : String) (e : String) :
    ∀ (k : Nat) (files : List (String × String)) (tail : List (Option String)),
      k < files.length →
      writeCredentials pth files (List.replicate k none ++ some e :: tail) =
        ((files.take k).map fun fb => (pathJoin pth fb.1, fb.2, 0o600), some e) := by
  intro k
  induction k with
  | zero =>
    intro files tail hk
    match files with
    | [] => simp at hk
    | fb :: rest => simp [writeCredentials]
  | succ k ih =>
    intro files tail hk
    match files with
    | [] => simp at hk
    | fb :: rest =>
      obtain ⟨fname, b⟩ := fb
      have hk' : k < rest.length := by simpa using hk
      simp [writeCredentials, List.replicate_succ, ih rest tail hk']

/-- C7: `credentials` with no explicit path resolves the destination to
the cluster name, creates that directory (mode `0777`), and writes every
file of the bundle into it verbatim with owner-only permission `0600`;
a directory-creation failure or a file-write failure aborts the command
with that error, and the files already written before a write failure
are not rolled back. -/
theorem c7_credentials_download (name : String) (h1 : name ≠ "") (h2 : name ≠ ".") :
    (∀ files : List (String × String),
      Download name "" files none none (List.replicate files.length none) =
        ⟨[(name, 0o777)], files.map fun fb => (name ++ "/" ++ fb.1, fb.2, 0o600),
         1, true, .success⟩) ∧
    (∀ (files : List (String × String)) (e : String) (wfail : List (Option String)),
      Download name "" files none (some e) wfail =
        ⟨[(name, 0o777)], [], 0, false, .errored e⟩) ∧
    (∀ (files : List (String × String)) (k : Nat) (e : String)
       (tail : List (Option String)), k < files.length →
      Download name "" files none none (List.replicate k none ++ some e :: tail) =
        ⟨[(name, 0o777)], (files.take k).map fun fb => (name ++ "/" ++ fb.1, fb.2, 0o600),
         0, false, .errored e⟩) := by
  refine ⟨?_, ?_, ?_⟩
  · intro files
    simp [Download, pathClean, h1, h2, writeCredentials_all_ok, pathJoin]
  · intro files e wfail
    simp [Download, pathClean, h1, h2]
  · intro files k e tail hk
    simp [Download, pathClean, h1, h2, writeCredentials_fail_at name e k files tail hk,
      pathJoin]

/-- Witness for C7 on a two-file bundle for cluster `foo`: all files
land in directory `foo` with permission `0600`; when the second write
fails, the first file stays written and the error is returned. -/
theorem c7_witness :
    ("foo" : String) ≠ "" ∧
    Download "foo" "" [("ca.pem", "CERT"), ("cert.pem", "KEY")] none none
        [none, none] =
      ⟨[("foo", 0o777)],
       [("foo/ca.pem", "CERT", 0o600), ("foo/cert.pem", "KEY", 0o600)], 1, true,
       .success⟩ ∧
    Download "foo" "" [("ca.pem", "CERT"), ("cert.pem", "KEY")] none none
        [none, some "disk full"] =
      ⟨[("foo", 0o777)], [("foo/ca.pem", "CERT", 0o600)], 0, false,
       .errored "disk full"⟩ := by
  refine ⟨by decide, ?_, ?_⟩
  · exact (c7_credentials_download "foo" (by decide) (by decide)).1
      [("ca.pem", "CERT"), ("cert.pem", "KEY")]
  · exact (c7_credentials_download "foo" (by decide) (by decide)).2.2
      [("ca.pem", "CERT"), ("cert.pem", "KEY")] 1 "disk full" [] (by decide)

/-- C9: a rendered row is the five fields `ClusterName`, `Flavor`,
`Nodes`, `AutoScale`, `Status` joined by tabs, in that order; the
header row is emitted only by `list` (neither `clusterApplyWait` nor
`clusterApply` ever writes it); and the concrete create of `foo` with 3
nodes, autoscale on, returning terminal status `active` on the first
call, renders exactly `foo\tflavor1\t3\ttrue\tactive\n` with no header
and no sleep. -/
theorem c9_row_format :
    (∀ c : Cluster, clusterRow c =
        c.ClusterName ++ "\t" ++ c.Flavor ++ "\t" ++ toString c.Nodes ++ "\t"
          ++ toString c.AutoScale ++ "\t" ++ c.Status ++ "\n") ∧
    (∀ clusters : List Cluster,
      ListCmd clusters none none =
        ⟨[], 0, headerRow :: clusters.map clusterRow, 1, 1, .success⟩) ∧
    (∀ (wait : Bool) (opRes : OpResult) (gets : List OpResult) (w : Option String),
      headerRow ∉ (clusterApplyWait wait opRes gets w).rows) ∧
    (∀ (opRes : OpResult) (w : Option String),
      headerRow ∉ (clusterApply opRes w).rows) ∧
    CreateCmd "foo" 3 true false
        (fun c => (some { c with Flavor := "flavor1", Status := "active" }, none))
        [] none =
      (⟨[], 0, ["foo\tflavor1\t3\ttrue\tactive\n"], 1, 1, .success⟩, 1) := by
  refine ⟨fun c => rfl, fun clusters => rfl, ?_, ?_, rfl⟩
  · intro wait opRes gets w hmem
    rcases clusterApplyWait_rows wait opRes gets w with h | ⟨c, h⟩
    · simp [h] at hmem
    · rw [h] at hmem
      simp at hmem
      exact clusterRow_ne_headerRow c hmem.symm
  · intro opRes w hmem
    rcases finish_rows [] 0 opRes.1 opRes.2 w with h | ⟨c, h⟩
    · rw [show clusterApply opRes w = finish [] 0 opRes.1 opRes.2 w from rfl, h] at hmem
      simp at hmem
    · rw [show clusterApply opRes w = finish [] 0 opRes.1 opRes.2 w from rfl, h] at hmem
      simp at hmem
      exact clusterRow_ne_headerRow c hmem.symm

/-- Witness for C9: the header row never appears in the output of an
apply-and-render command at a concrete input. -/
theorem c9_witness :
    headerRow ∉
      (clusterApplyWait false (some ⟨"foo", "flavor1", 3, true, "active"⟩, none)
        [] none).rows :=
  c9_row_format.2.2.1 false (some ⟨"foo", "flavor1", 3, true, "active"⟩, none) [] none

/-- C10: `grow` performs no client-side validation — for every delta,
zero and negatives included, it is exactly `clusterApply` of the API
client's `Grow` applied to the unchanged delta — and it errors exactly
when the API call or the rendering errors; `create` by contrast rejects
node counts below 1 with zero API `Create` calls. -/
theorem c10_grow_forwards_delta (name : String) (nodes : Int)
    (apiGrow : String → Int → OpResult) (w : Option String) :
    (GrowCmd name nodes apiGrow w = clusterApply (apiGrow name nodes) w) ∧
    (∀ (c? : Option Cluster) (e : String), apiGrow name nodes = (c?, some e) →
      GrowCmd name nodes apiGrow w = ⟨[], 0, [], 0, 1, .errored e⟩) ∧
    (∀ c : Cluster, apiGrow name nodes = (some c, none) → w = none →
      GrowCmd name nodes apiGrow w = ⟨[], 0, [clusterRow c], 1, 1, .success⟩) ∧
    (∀ (c : Cluster) (e : String), apiGrow name nodes = (some c, none) → w = some e →
      GrowCmd name nodes apiGrow w = ⟨[], 0, [], 0, 1, .errored e⟩) ∧
    (nodes < 1 → ∀ (a wait : Bool) (api : Cluster → OpResult) (gets : List OpResult),
      (CreateCmd name nodes a wait api gets w).2 = 0) := by
  refine ⟨rfl, ?_, ?_, ?_, ?_⟩
  · intro c? e h
    simp [GrowCmd, clusterApply, h, finish]
  · intro c h hw
    subst hw
    simp [GrowCmd, clusterApply, h, finish]
  · intro c e h hw
    subst hw
    simp [GrowCmd, clusterApply, h, finish]
  · intro hn a wait api gets
    simp [CreateCmd, createOp, hn]

/-- Witness for C10 at delta `-5`: `grow` calls the API with the
unchanged negative delta (the rendered row shows `-5`), while `create`
with the same count makes zero API `Create` calls. -/
theorem c10_witness :
    GrowCmd "foo" (-5) (fun n d => (some ⟨n, "fl", d, false, "ok"⟩, none)) none =
      ⟨[], 0, ["foo\tfl\t-5\tfalse\tok\n"], 1, 1, .success⟩ ∧
    (CreateCmd "foo" (-5) true false (fun c => (some c, none)) [] none).2 = 0 :=
  ⟨(c10_grow_forwards_delta "foo" (-5)
      (fun n d => (some ⟨n, "fl", d, false, "ok"⟩, none)) none).2.2.1
      ⟨"foo", "fl", -5, false, "ok"⟩ rfl rfl,
   (c10_grow_forwards_delta "foo" (-5) (fun _ _ => (none, none)) none).2.2.2.2
      (by decide) true false (fun c => (some c, none)) []⟩

end Carina
